import Mathlib

/-
  Verification of the `check` command pipeline of krakend-cobra
  (src/check.go): schema-source resolution, schema loading over HTTP,
  the linting/dump/route-simulation pipeline orchestrator, and the
  panic-isolating route simulation runner.

  The Go code is shallowly embedded: external collaborators (the config
  parser, the JSON unmarshaller, the jsonschema compiler/validator, the
  dumper, the router's `Run`) are modelled as outcome-valued parameters
  of the environment, while every decision made by check.go itself
  (control flow, flag checks, string manipulation, error classification,
  resource handling) is translated directly from the source.
-/

namespace KrakendCheck

/-- The online schema URL template: the Go global `onlineSchema`
(src/check.go line 27). -/
def onlineSchema : String := "https://www.krakend.io/schema/v%s/krakend.json"

/-- Model of `fmt.Sprintf(onlineSchema, v)`: the template's single `%s`
verb replaced by the argument. `onlineSchema_decomp` below ties this
definition to the template string itself. -/
def onlineSchemaURL (v : String) : String :=
  "https://www.krakend.io/schema/v" ++ v ++ "/krakend.json"

/-- The template is exactly the URL head, a `%s` verb, and the URL tail,
so `onlineSchemaURL` is `fmt.Sprintf` on `onlineSchema`. -/
theorem onlineSchema_decomp :
    onlineSchema = "https://www.krakend.io/schema/v" ++ "%s" ++ "/krakend.json" :=
  rfl

/-- Model of Go's `strings.Split` for a single-character separator, at
the character-list level: splits at every occurrence of the separator;
the empty input yields one empty component. Structural, so it computes
inside `decide`. -/
def splitChars (c : Char) : List Char → List (List Char)
  | [] => [[]]
  | x :: xs =>
    if x = c then [] :: splitChars c xs
    else
      match splitChars c xs with
      | [] => [[x]]
      | h :: t => (x :: h) :: t

/-- Go's `strings.Split(s, sep)` for a one-character separator. -/
def goSplit (sep : Char) (s : String) : List String :=
  (splitChars sep s.data).map String.mk

/-- `getVersionMinor` (src/check.go lines 188-194): split the version on
`.`; with fewer than two components return the input unchanged, otherwise
join the first two components with `.` (`fmt.Sprintf("%s.%s", ...)`). -/
def getVersionMinor (ver : String) : String :=
  if (goSplit '.' ver).length < 2 then ver
  else (goSplit '.' ver).getD 0 "" ++ "." ++ (goSplit '.' ver).getD 1 ""

/-! ### HTTP URL loader (src/check.go lines 196-211) -/

/-- Errors produced by `HTTPURLLoader.Load`. -/
inductive LoadErr where
  /-- `client.Get` returned a transport-level error (no response). -/
  | transport (msg : String)
  /-- Non-200 response: `fmt.Errorf("%s returned status code %d", url, code)`. -/
  | status (url : String) (code : Nat)
  /-- `jsonschema.UnmarshalJSON(resp.Body)` failed. -/
  | bodyParse (msg : String)
  deriving DecidableEq, Repr

/-- An HTTP response as the loader observes it: the status code, and the
outcome that parsing the body as a schema document would produce. -/
structure HTTPResponse (doc : Type) where
  statusCode : Nat
  bodyDoc : Except String doc

/-- Outcome of `client.Get(url)`: a transport failure (nil response) or a
response. -/
inductive GetOutcome (doc : Type) where
  | failure (msg : String)
  | success (resp : HTTPResponse doc)

/-- `http.StatusOK`. -/
def statusOK : Nat := 200

/-- Result of one `Load` call, together with the observable resource
facts: whether the response body was closed before returning, and
whether the body was ever handed to the parser. When `Get` itself fails
there is no body, and both flags are `false`. -/
structure LoadTrace (doc : Type) where
  result : Except LoadErr doc
  bodyClosed : Bool
  bodyParsed : Bool

/-- `HTTPURLLoader.Load` (src/check.go lines 198-211): on transport error
return it; on a non-200 status close the body and fail with the URL and
status code without touching the body; otherwise parse the body, the
deferred close releasing it on both the success and the parse-failure
path. -/
def HTTPURLLoader.Load {doc : Type} (url : String) (get : GetOutcome doc) :
    LoadTrace doc :=
  match get with
  | .failure msg => ⟨.error (.transport msg), false, false⟩
  | .success resp =>
    if resp.statusCode ≠ statusOK then
      ⟨.error (.status url resp.statusCode), true, false⟩
    else
      match resp.bodyDoc with
      | .ok d => ⟨.ok d, true, true⟩
      | .error m => ⟨.error (.bodyParse m), true, true⟩

/-! ### Route simulation runner (src/check.go lines 169-186) -/

/-- The slice of `config.ServiceConfig` that `RunRouterFunc` touches:
the `Debug` flag, the `Port`, and an abstract remainder standing for
every other field. -/
structure ServiceConfig (α : Type) where
  debug : Bool
  port : Int
  rest : α
  deriving DecidableEq, Repr

/-- A Go panic value as seen by `recover()`: either a `string` (the only
case the code's `r.(string)` assertion handles) or any non-string value
(e.g. a `runtime.Error`). -/
inductive PanicValue where
  | str (s : String)
  | nonString
  deriving DecidableEq, Repr

/-- Synchronous outcome of `.NewWithContext(ctx).Run(cfg)`. `Run` returns
no value, so the only abnormal outcome is a panic. -/
inductive RunOutcome where
  | normal
  | panicked (v : PanicValue)
  deriving DecidableEq, Repr

/-- How control leaves `RunRouterFunc`: an ordinary return carrying the
`error` result, or a panic escaping the function (which, having no other
recover in `checkFunc`, terminates the process abnormally). -/
inductive RouterReturn where
  | returned (err : Option String)
  | processPanic
  deriving DecidableEq, Repr

/-- Observable trace of one `RunRouterFunc` call: how it exited, whether
`cancel()` was invoked before exit, and the config value handed to
`Run`. -/
structure RouterTrace (α : Type) where
  result : RouterReturn
  cancelCalled : Bool
  cfgUsed : ServiceConfig α

/-- The two overrides applied to the by-value copy of the config
(src/check.go lines 177-180): `cfg.Debug = cfg.Debug || debug > 0` and
`if port != 0 { cfg.Port = port }`. -/
def simConfig {α : Type} (cfg : ServiceConfig α) (dbg : Int) (port : Int) :
    ServiceConfig α :=
  { cfg with
      debug := cfg.debug || decide (0 < dbg)
      port := if port ≠ 0 then port else cfg.port }

/-- `RunRouterFunc` (src/check.go lines 169-186). `cfg` arrives by value,
so the caller's config is never modified; the overridden copy is passed
to `Run` inside a 1-second-deadline context. If `Run` returns, `cancel()`
runs and `nil` is returned. If `Run` panics with a string, the deferred
`recover` converts it to an error, but `cancel()` on line 184 is skipped.
If `Run` panics with a non-string value, `r.(string)` in the deferred
function panics again and the fault escapes the function. -/
def RunRouterFunc {α : Type} (dbg : Int) (port : Int)
    (run : ServiceConfig α → RunOutcome) (cfg : ServiceConfig α) :
    RouterTrace α :=
  match run (simConfig cfg dbg port) with
  | .normal => ⟨.returned none, true, simConfig cfg dbg port⟩
  | .panicked (.str s) => ⟨.returned (some s), false, simConfig cfg dbg port⟩
  | .panicked .nonString => ⟨.processPanic, false, simConfig cfg dbg port⟩

/-! ### Schema source resolution (src/check.go lines 85-98) -/

/-- The schema source actually used: a location (custom path/URL or the
derived online URL, both flowing through `schemaPath`), or the embedded
raw text. -/
inductive SchemaSource where
  | location (path : String)
  | embedded
  deriving DecidableEq, Repr

/-- Error kinds of the pipeline, one per `os.Exit(1)` site of
`checkFunc`. -/
inductive CheckErr where
  | missingConfigPath
  | configParse (msg : String)
  | rawContent (msg : String)
  | invalidJSON (msg : String)
  | conflictingOptions
  | compileCustom (msg : String)
  | parseEmbedErr (msg : String)
  | compileEmbedErr (msg : String)
  | validationErr (msg : String)
  | dumpErr (msg : String)
  | simulationErr (msg : String)
  deriving DecidableEq, Repr

/-- Schema-source resolution (src/check.go lines 85-98): the mutual
exclusivity check of `--schema` and `--online`, then the fallback to the
online URL when `--online` is set or no embedded schema was compiled in,
then the choice between a location (`len(schemaPath) > 0`) and the
embedded text. -/
def resolveSchemaSource (schemaPath : String) (schemaFetchOnline : Bool)
    (rawEmbedSchema : String) (version : String) :
    Except CheckErr SchemaSource :=
  if 0 < schemaPath.length ∧ schemaFetchOnline = true then
    .error .conflictingOptions
  else
    let sp := if schemaFetchOnline || rawEmbedSchema = "" then
        onlineSchemaURL (getVersionMinor version)
      else schemaPath
    if 0 < sp.length then .ok (.location sp) else .ok .embedded

/-! ### The pipeline orchestrator `checkFunc` (src/check.go lines 45-167) -/

/-- The stages of the pipeline, in the order the code can attempt
them. `compileLocation` (compile via the scheme-dispatching loader) and
`parseEmbed`/`compileEmbed` (parse and compile the bundled text) are the
two alternative schema branches. -/
inductive Stage where
  | parseCfg
  | obtainRaw
  | parseJSON
  | conflictCheck
  | compileLocation
  | parseEmbed
  | compileEmbed
  | validateCfg
  | dumpCfg
  | simulate
  deriving DecidableEq, Repr

/-- The canonical stage order of the pipeline. -/
def stageOrder : List Stage :=
  [.parseCfg, .obtainRaw, .parseJSON, .conflictCheck, .compileLocation,
   .parseEmbed, .compileEmbed, .validateCfg, .dumpCfg, .simulate]

/-- The environment of one `checkFunc` run: the CLI/global flags and the
outcome of every collaborator call the run may make. `cfgT` is the type
of the config fields the pipeline never inspects, `doc` the type of
in-memory JSON documents, `schemaT` the type of compiled schemas. -/
structure CheckEnv (cfgT doc schemaT : Type) where
  cfgFile : String
  parseResult : Except String (ServiceConfig cfgT)
  schemaValidation : Bool
  /-- whether `parser.(LastSourcer)` succeeds (runtime capability check). -/
  isLastSourcer : Bool
  lastSource : Except String (List Nat)
  readFile : Except String (List Nat)
  jsonUnmarshal : List Nat → Except String doc
  schemaPath : String
  schemaFetchOnline : Bool
  rawEmbedSchema : String
  krakendVersion : String
  /-- `compiler.Compile(schemaPath)` with the file/http/https loaders. -/
  compileLocation : String → Except String schemaT
  /-- `jsonschema.UnmarshalJSON` on the embedded raw text. -/
  unmarshalEmbed : String → Except String doc
  /-- `AddResource("schema.json", raw)` + `Compile("schema.json")`. -/
  compileEmbed : doc → Except String schemaT
  /-- `sch.Validate(raw)`: `none` on success, the error message otherwise. -/
  validate : schemaT → doc → Option String
  debug : Int
  dump : ServiceConfig cfgT → Option String
  checkGinRoutes : Bool
  runRouter : ServiceConfig cfgT → Option String

/-- `data, err := ls.LastSource()` when the parser exposes the
capability, `os.ReadFile(cfgFile)` otherwise (src/check.go lines
64-70). -/
def obtainRawBytes {cfgT doc schemaT : Type}
    (env : CheckEnv cfgT doc schemaT) : Except String (List Nat) :=
  if env.isLastSourcer then env.lastSource else env.readFile

/-- Observable result of one `checkFunc` run: the exit code, the error
that terminated it (if any), the ordered list of stages attempted, the
schema source used (when resolution was reached and succeeded), the raw
embedded text handed to the schema parser (embedded branch only), and
the raw config bytes handed to `json.Unmarshal` (when obtained). The
`syntaxOK` flag records whether the final "Syntax OK!" line was
printed. -/
structure CheckResult where
  exitCode : Nat
  err : Option CheckErr
  trace : List Stage
  resolvedSource : Option SchemaSource
  embeddedTextParsed : Option String
  rawUsed : Option (List Nat)
  syntaxOK : Bool
  deriving Repr

/-- The dump / route-simulation / success tail of `checkFunc`
(src/check.go lines 145-167), shared by the lint and no-lint paths. -/
def checkTail (dbg : Int) (dumpRes : Option String) (routes : Bool)
    (runRes : Option String) (tr : List Stage) (src : Option SchemaSource)
    (emb : Option String) (raw : Option (List Nat)) : CheckResult :=
  if 0 < dbg then
    match dumpRes with
    | some e => ⟨1, some (.dumpErr e), tr ++ [.dumpCfg], src, emb, raw, false⟩
    | none =>
      if routes then
        match runRes with
        | some e =>
          ⟨1, some (.simulationErr e), tr ++ [.dumpCfg, .simulate], src, emb,
            raw, false⟩
        | none => ⟨0, none, tr ++ [.dumpCfg, .simulate], src, emb, raw, true⟩
      else ⟨0, none, tr ++ [.dumpCfg], src, emb, raw, true⟩
  else
    if routes then
      match runRes with
      | some e =>
        ⟨1, some (.simulationErr e), tr ++ [.simulate], src, emb, raw, false⟩
      | none => ⟨0, none, tr ++ [.simulate], src, emb, raw, true⟩
    else ⟨0, none, tr, src, emb, raw, true⟩

/-- `checkFunc` (src/check.go lines 45-167), as a function from the run's
environment to its observable result. Every `os.Exit(1)` site becomes a
result with exit code 1 and the corresponding error kind; the stage
trace records each collaborator call in program order. -/
def checkFunc {cfgT doc schemaT : Type} (env : CheckEnv cfgT doc schemaT) :
    CheckResult :=
  if env.cfgFile = "" then
    ⟨1, some .missingConfigPath, [], none, none, none, false⟩
  else
    match env.parseResult with
    | .error e => ⟨1, some (.configParse e), [.parseCfg], none, none, none, false⟩
    | .ok v =>
      if env.schemaValidation then
        match obtainRawBytes env with
        | .error e =>
          ⟨1, some (.rawContent e), [.parseCfg, .obtainRaw], none, none, none,
            false⟩
        | .ok data =>
          match env.jsonUnmarshal data with
          | .error e =>
            ⟨1, some (.invalidJSON e), [.parseCfg, .obtainRaw, .parseJSON],
              none, none, some data, false⟩
          | .ok raw =>
            match resolveSchemaSource env.schemaPath env.schemaFetchOnline
                env.rawEmbedSchema env.krakendVersion with
            | .error e =>
              ⟨1, some e, [.parseCfg, .obtainRaw, .parseJSON, .conflictCheck],
                none, none, some data, false⟩
            | .ok (.location sp) =>
              match env.compileLocation sp with
              | .error e =>
                ⟨1, some (.compileCustom e),
                  [.parseCfg, .obtainRaw, .parseJSON, .conflictCheck,
                   .compileLocation], some (.location sp), none, some data,
                  false⟩
              | .ok sch =>
                match env.validate sch raw with
                | some e =>
                  ⟨1, some (.validationErr e),
                    [.parseCfg, .obtainRaw, .parseJSON, .conflictCheck,
                     .compileLocation, .validateCfg], some (.location sp),
                    none, some data, false⟩
                | none =>
                  checkTail env.debug (env.dump v) env.checkGinRoutes
                    (env.runRouter v)
                    [.parseCfg, .obtainRaw, .parseJSON, .conflictCheck,
                     .compileLocation, .validateCfg] (some (.location sp))
                    none (some data)
            | .ok .embedded =>
              match env.unmarshalEmbed env.rawEmbedSchema with
              | .error e =>
                ⟨1, some (.parseEmbedErr e),
                  [.parseCfg, .obtainRaw, .parseJSON, .conflictCheck,
                   .parseEmbed], some .embedded, some env.rawEmbedSchema,
                  some data, false⟩
              | .ok rawSchema =>
                match env.compileEmbed rawSchema with
                | .error e =>
                  ⟨1, some (.compileEmbedErr e),
                    [.parseCfg, .obtainRaw, .parseJSON, .conflictCheck,
                     .parseEmbed, .compileEmbed], some .embedded,
                    some env.rawEmbedSchema, some data, false⟩
                | .ok sch =>
                  match env.validate sch raw with
                  | some e =>
                    ⟨1, some (.validationErr e),
                      [.parseCfg, .obtainRaw, .parseJSON, .conflictCheck,
                       .parseEmbed, .compileEmbed, .validateCfg],
                      some .embedded, some env.rawEmbedSchema, some data,
                      false⟩
                  | none =>
                    checkTail env.debug (env.dump v) env.checkGinRoutes
                      (env.runRouter v)
                      [.parseCfg, .obtainRaw, .parseJSON, .conflictCheck,
                       .parseEmbed, .compileEmbed, .validateCfg]
                      (some .embedded) (some env.rawEmbedSchema) (some data)
      else
        checkTail env.debug (env.dump v) env.checkGinRoutes (env.runRouter v)
          [.parseCfg] none none none

/-- The stage at which an error kind terminates the run (`none` for the
missing-config-path error, raised before any stage runs). -/
def errStage : CheckErr → Option Stage
  | .missingConfigPath => none
  | .configParse _ => some .parseCfg
  | .rawContent _ => some .obtainRaw
  | .invalidJSON _ => some .parseJSON
  | .conflictingOptions => some .conflictCheck
  | .compileCustom _ => some .compileLocation
  | .parseEmbedErr _ => some .parseEmbed
  | .compileEmbedErr _ => some .compileEmbed
  | .validationErr _ => some .validateCfg
  | .dumpErr _ => some .dumpCfg
  | .simulationErr _ => some .simulate

/-- A concrete environment for evaluating the pipeline: linting
requested, embedded schema present, no custom location, no online flag,
parser exposing its last source, every collaborator succeeding, dump and
route simulation requested. -/
def envBase : CheckEnv Unit Unit Unit where
  cfgFile := "krakend.json"
  parseResult := .ok ⟨false, 8080, ()⟩
  schemaValidation := true
  isLastSourcer := true
  lastSource := .ok [123, 125]
  readFile := .ok []
  jsonUnmarshal := fun _ => .ok ()
  schemaPath := ""
  schemaFetchOnline := false
  rawEmbedSchema := "x"
  krakendVersion := "2.7.1"
  compileLocation := fun _ => .ok ()
  unmarshalEmbed := fun _ => .ok ()
  compileEmbed := fun _ => .ok ()
  validate := fun _ _ => none
  debug := 1
  dump := fun _ => none
  checkGinRoutes := true
  runRouter := fun _ => none

/-- `envBase` with both a custom schema location and the online flag. -/
def envConflict : CheckEnv Unit Unit Unit :=
  { envBase with schemaPath := "./schema.json", schemaFetchOnline := true }

/-- `envBase` with a route simulation that reports a failure. -/
def envSimFail : CheckEnv Unit Unit Unit :=
  { envBase with runRouter := fun _ => some "boom" }

/-! ## Helper lemmas -/

/-- Joining a list of components with a separator character (the inverse
of `splitChars`): used only to certify that `splitChars` really is the
split on that separator. -/
def joinSep (c : Char) : List (List Char) → List Char
  | [] => []
  | [a] => a
  | a :: rest => a ++ c :: joinSep c rest

/-- `splitChars` never returns the empty list of components. -/
theorem splitChars_ne_nil (c : Char) (l : List Char) :
    splitChars c l ≠ [] := by
  cases l with
  | nil => simp [splitChars]
  | cons x xs =>
    simp only [splitChars]
    split
    · simp
    · split
      · simp
      · simp

/-- Joining the components of `splitChars` with the separator recovers
the input: `splitChars` loses nothing. -/
theorem joinSep_splitChars (c : Char) (l : List Char) :
    joinSep c (splitChars c l) = l := by
  induction l with
  | nil => rfl
  | cons x xs ih =>
    simp only [splitChars]
    by_cases hx : x = c
    · rw [if_pos hx]
      subst hx
      rcases hs : splitChars x xs with _ | ⟨h, t⟩
      · exact absurd hs (splitChars_ne_nil x xs)
      · rw [hs] at ih
        simpa [joinSep] using ih
    · rw [if_neg hx]
      rcases hs : splitChars c xs with _ | ⟨h, t⟩
      · exact absurd hs (splitChars_ne_nil c xs)
      · rw [hs] at ih
        cases t with
        | nil => simpa [joinSep] using ih
        | cons b bs => simpa [joinSep] using ih

/-- No component produced by `splitChars` contains the separator:
together with `joinSep_splitChars` this pins `splitChars` down as the
split on the separator. -/
theorem splitChars_not_mem (c : Char) (l : List Char) :
    ∀ a ∈ splitChars c l, c ∉ a := by
  induction l with
  | nil => simp [splitChars]
  | cons x xs ih =>
    simp only [splitChars]
    by_cases hx : x = c
    · rw [if_pos hx]
      intro a ha
      rcases List.mem_cons.1 ha with rfl | ha
      · simp
      · exact ih a ha
    · rw [if_neg hx]
      rcases hs : splitChars c xs with _ | ⟨h, t⟩
      · exact absurd hs (splitChars_ne_nil c xs)
      · rw [hs] at ih
        intro a ha
        rcases List.mem_cons.1 ha with rfl | ha
        · intro hmem
          rcases List.mem_cons.1 hmem with rfl | hmem
          · exact hx rfl
          · exact ih h (List.mem_cons_self h t) hmem
        · exact ih a (List.mem_cons_of_mem h ha)

/-- The derived online URL is never the empty string (it contains the
fixed URL head). -/
theorem onlineSchemaURL_length_pos (x : String) :
    0 < (onlineSchemaURL x).length := by
  have h : (onlineSchemaURL x).length =
      "https://www.krakend.io/schema/v".length + x.length +
        "/krakend.json".length := by
    simp [onlineSchemaURL, String.length_append]
  have h2 : "https://www.krakend.io/schema/v".length = 31 := rfl
  have h3 : "/krakend.json".length = 13 := rfl
  omega

/-- Flattened characterization of `resolveSchemaSource`, using that the
online URL is never empty. -/
theorem resolveSchemaSource_eq (p : String) (o : Bool) (e v : String) :
    resolveSchemaSource p o e v =
      if 0 < p.length ∧ o = true then .error .conflictingOptions
      else if o || e = "" then
        .ok (.location (onlineSchemaURL (getVersionMinor v)))
      else if 0 < p.length then .ok (.location p)
      else .ok .embedded := by
  simp only [resolveSchemaSource]
  split
  · rfl
  · split
    · rw [if_pos (onlineSchemaURL_length_pos _)]
    · rfl

/-- The only error schema-source resolution can produce is the
conflicting-options one. -/
theorem resolveSchemaSource_error (p : String) (o : Bool) (emb v : String)
    (err : CheckErr)
    (h : resolveSchemaSource p o emb v = .error err) :
    err = .conflictingOptions := by
  rw [resolveSchemaSource_eq] at h
  split at h
  · injection h with h
    exact h.symm
  · split at h
    · exact Except.noConfusion h
    · split at h
      · exact Except.noConfusion h
      · exact Except.noConfusion h

/-! ## Claims -/

/-- C5: the online-URL version derivation splits the version string on
`.`; with fewer than two dot-separated components it returns the whole
string unchanged, otherwise exactly the first two components joined by a
dot; the result is substituted into the fixed online-schema URL
template. -/
theorem c5_getVersionMinor_spec (ver : String) :
    ((goSplit '.' ver).length < 2 → getVersionMinor ver = ver) ∧
    (∀ c0 c1 rest, goSplit '.' ver = c0 :: c1 :: rest →
      getVersionMinor ver = c0 ++ "." ++ c1) ∧
    onlineSchemaURL (getVersionMinor ver) =
      "https://www.krakend.io/schema/v" ++ getVersionMinor ver ++
        "/krakend.json" := by
  refine ⟨fun h => ?_, fun c0 c1 rest h => ?_, rfl⟩
  · simp only [getVersionMinor]
    rw [if_pos h]
  · simp only [getVersionMinor, h]
    simp

/-- Witness for C5 at the concrete version string `"2.7.1"`. -/
theorem c5_witness : getVersionMinor "2.7.1" = "2.7" :=
  (c5_getVersionMinor_spec "2.7.1").2.1 "2" "7" ["1"] (by decide)

/-- C6: for every HTTP(S) response obtained by the loader, a non-200
status yields an error carrying the URL and the status code with the
body never parsed, and the body is closed on every exit path (status
failure, body-parse failure, success). -/
theorem c6_httpLoader_spec {α : Type} (url : String) (resp : HTTPResponse α) :
    (resp.statusCode ≠ statusOK →
      (HTTPURLLoader.Load url (.success resp)).result =
          .error (.status url resp.statusCode) ∧
        (HTTPURLLoader.Load url (.success resp)).bodyParsed = false) ∧
    (HTTPURLLoader.Load url (.success resp)).bodyClosed = true := by
  constructor
  · intro h
    simp only [HTTPURLLoader.Load]
    rw [if_pos h]
    exact ⟨rfl, rfl⟩
  · simp only [HTTPURLLoader.Load]
    split
    · rfl
    · cases resp.bodyDoc <;> simp

/-- Witness for C6 at a concrete 404 response. -/
theorem c6_witness :
    (HTTPURLLoader.Load "https://www.krakend.io/schema/v2.7/krakend.json"
        (GetOutcome.success (⟨404, Except.error "not found"⟩ :
          HTTPResponse Unit))).result =
      .error (.status "https://www.krakend.io/schema/v2.7/krakend.json" 404) ∧
    (HTTPURLLoader.Load "https://www.krakend.io/schema/v2.7/krakend.json"
        (GetOutcome.success (⟨404, Except.error "not found"⟩ :
          HTTPResponse Unit))).bodyClosed = true := by
  have h := @c6_httpLoader_spec Unit
    "https://www.krakend.io/schema/v2.7/krakend.json"
    ⟨404, Except.error "not found"⟩
  exact ⟨(h.1 (by decide)).1, h.2⟩

/-- C1 counterexample: when the router run panics with a non-string
value (e.g. a `runtime.Error`), the `r.(string)` assertion in the
deferred recover panics again and the fault escapes `RunRouterFunc`
instead of being converted into an error result — refuting "regardless
of the type of the panic value". -/
theorem c1_counterexample :
    (RunRouterFunc 0 0
        (fun _ : ServiceConfig Unit => RunOutcome.panicked .nonString)
        ⟨false, 0, ()⟩).result = RouterReturn.processPanic := rfl

/-- C1 (amended): every fault raised during the simulated router run
whose panic value is a string is converted by `RunRouterFunc` into an
ordinary error result carrying that text and does not propagate; a panic
carrying a non-string value escapes the recover's type assertion. -/
theorem c1_amended {α : Type} (dbg port : Int)
    (run : ServiceConfig α → RunOutcome) (cfg : ServiceConfig α) (s : String)
    (h : run (simConfig cfg dbg port) = .panicked (.str s)) :
    (RunRouterFunc dbg port run cfg).result = .returned (some s) := by
  simp [RunRouterFunc, h]

/-- Witness for the amended C1 at a concrete string panic. -/
theorem c1_amended_witness :
    (RunRouterFunc 0 0
        (fun _ : ServiceConfig Unit => RunOutcome.panicked (.str "boom"))
        ⟨false, 0, ()⟩).result = .returned (some "boom") :=
  c1_amended 0 0 _ ⟨false, 0, ()⟩ "boom" rfl

/-- C2 counterexample: when the router run panics with a string,
`RunRouterFunc` returns an error result, yet `cancel()` (line 184) was
never invoked — refuting "the cancellable context is cancelled before
RunRouterFunc returns on every execution path". -/
theorem c2_counterexample :
    (RunRouterFunc 0 0
        (fun _ : ServiceConfig Unit => RunOutcome.panicked (.str "boom"))
        ⟨false, 0, ()⟩).result = .returned (some "boom") ∧
    (RunRouterFunc 0 0
        (fun _ : ServiceConfig Unit => RunOutcome.panicked (.str "boom"))
        ⟨false, 0, ()⟩).cancelCalled = false :=
  ⟨rfl, rfl⟩

/-- C2 (amended): the cancel function of the simulation context is
invoked before `RunRouterFunc` exits exactly when the router run returns
normally (success or deadline expiry); when the run panics, the function
exits without invoking it. -/
theorem c2_amended {α : Type} (dbg port : Int)
    (run : ServiceConfig α → RunOutcome) (cfg : ServiceConfig α) :
    (RunRouterFunc dbg port run cfg).cancelCalled = true ↔
      run (simConfig cfg dbg port) = .normal := by
  cases h : run (simConfig cfg dbg port) with
  | normal => simp [RunRouterFunc, h]
  | panicked v => cases v <;> simp [RunRouterFunc, h]

/-- C9: the route simulation operates on a by-value copy of the parsed
config and modifies only two fields: the debug flag becomes the
disjunction of its prior value and the CLI debug setting (a true value
is never cleared) and the port is overwritten only when the CLI port is
non-zero; every other field of the copy is unchanged, and the copy is
exactly what the router run receives. -/
theorem c9_simConfig_frame {α : Type} (cfg : ServiceConfig α)
    (dbg port : Int) :
    (simConfig cfg dbg port).debug = (cfg.debug || decide (0 < dbg)) ∧
    (cfg.debug = true → (simConfig cfg dbg port).debug = true) ∧
    (port ≠ 0 → (simConfig cfg dbg port).port = port) ∧
    (port = 0 → (simConfig cfg dbg port).port = cfg.port) ∧
    (simConfig cfg dbg port).rest = cfg.rest ∧
    (∀ run : ServiceConfig α → RunOutcome,
      (RunRouterFunc dbg port run cfg).cfgUsed = simConfig cfg dbg port) := by
  refine ⟨rfl, fun h => ?_, fun h => ?_, fun h => ?_, rfl, fun run => ?_⟩
  · simp [simConfig, h]
  · simp [simConfig, h]
  · simp [simConfig, h]
  · cases h : run (simConfig cfg dbg port) with
    | normal => simp [RunRouterFunc, h]
    | panicked v => cases v <;> simp [RunRouterFunc, h]

/-- Witness for C9 at a concrete config and CLI settings. -/
theorem c9_witness :
    (simConfig (⟨true, 7, ()⟩ : ServiceConfig Unit) 0 9).debug = true ∧
    (simConfig (⟨true, 7, ()⟩ : ServiceConfig Unit) 0 9).port = 9 ∧
    (simConfig (⟨true, 7, ()⟩ : ServiceConfig Unit) 0 9).rest = () := by
  have h := c9_simConfig_frame (⟨true, 7, ()⟩ : ServiceConfig Unit) 0 9
  exact ⟨h.2.1 rfl, h.2.2.1 (by decide), h.2.2.2.2.1⟩

/-- C10: when the router run returns without panicking, `RunRouterFunc`
returns `nil`: the run call yields no error value to capture, so a
non-nil result can only arise from a recovered string panic. -/
theorem c10_runRouter_nil {α : Type} (dbg port : Int)
    (run : ServiceConfig α → RunOutcome) (cfg : ServiceConfig α) :
    (run (simConfig cfg dbg port) = .normal →
      (RunRouterFunc dbg port run cfg).result = .returned none) ∧
    (∀ s, (RunRouterFunc dbg port run cfg).result = .returned (some s) →
      run (simConfig cfg dbg port) = .panicked (.str s)) := by
  constructor
  · intro h
    simp [RunRouterFunc, h]
  · intro s h
    revert h
    cases hr : run (simConfig cfg dbg port) with
    | normal => simp [RunRouterFunc, hr]
    | panicked v => cases v <;> simp [RunRouterFunc, hr]

/-- Witness for C10: a run that returns normally yields a `nil` error. -/
theorem c10_witness :
    (RunRouterFunc 0 0 (fun _ : ServiceConfig Unit => RunOutcome.normal)
        ⟨false, 0, ()⟩).result = .returned none :=
  (c10_runRouter_nil 0 0 (fun _ => RunOutcome.normal) ⟨false, 0, ()⟩).1 rfl

/-- C3: whenever the custom schema location is non-empty and the online
fetch is forced, schema-source resolution fails with the
conflicting-options error regardless of every other input, and the
pipeline that reaches the conflict check terminates there: exit code 1
and no schema loading, compilation or validation stage runs. -/
theorem c3_conflictingOptions {σ τ υ : Type} (env : CheckEnv σ τ υ)
    (hp : 0 < env.schemaPath.length) (ho : env.schemaFetchOnline = true) :
    resolveSchemaSource env.schemaPath env.schemaFetchOnline
        env.rawEmbedSchema env.krakendVersion =
      .error .conflictingOptions ∧
    (Stage.conflictCheck ∈ (checkFunc env).trace →
      (checkFunc env).err = some .conflictingOptions ∧
      (checkFunc env).exitCode = 1 ∧
      Stage.compileLocation ∉ (checkFunc env).trace ∧
      Stage.parseEmbed ∉ (checkFunc env).trace ∧
      Stage.compileEmbed ∉ (checkFunc env).trace ∧
      Stage.validateCfg ∉ (checkFunc env).trace) := by
  have h1 : resolveSchemaSource env.schemaPath env.schemaFetchOnline
      env.rawEmbedSchema env.krakendVersion = .error .conflictingOptions := by
    rw [resolveSchemaSource_eq, if_pos ⟨hp, ho⟩]
  refine ⟨h1, ?_⟩
  unfold checkFunc checkTail
  repeat' split
  all_goals simp_all

/-- C7: the pipeline attempts its stages strictly in the canonical
order, each at most once (the trace is a sublist of the duplicate-free
stage order, so no stage is retried); the exit code is zero exactly when
no error occurred; "Syntax OK" is printed exactly when the exit code is
zero; and when an error occurred, the stage it names is the last stage
attempted — the first failure terminates the run. -/
theorem c7_pipeline {σ τ υ : Type} (env : CheckEnv σ τ υ) :
    List.Sublist (checkFunc env).trace stageOrder ∧
    ((checkFunc env).exitCode = 0 ↔ (checkFunc env).err = none) ∧
    ((checkFunc env).syntaxOK = true ↔ (checkFunc env).exitCode = 0) ∧
    (∀ e, (checkFunc env).err = some e →
      (checkFunc env).trace.getLast? = errStage e) := by
  refine ⟨?_, ?_, ?_, ?_⟩
  · unfold checkFunc checkTail
    repeat' split
    all_goals simp_all
    all_goals decide
  · unfold checkFunc checkTail
    repeat' split
    all_goals simp_all
  · unfold checkFunc checkTail
    repeat' split
    all_goals simp_all
  · unfold checkFunc checkTail
    repeat' split
    all_goals intro e he
    all_goals simp_all
    all_goals subst he
    all_goals try rfl
    all_goals rename_i heq2
    all_goals rw [resolveSchemaSource_error _ _ _ _ _ heq2]
    all_goals rfl

/-- C8: when linting runs, the raw configuration bytes come from the
parser's last-parsed-source capability whenever the runtime capability
check succeeds, and only otherwise from reading the configuration file;
any bytes the pipeline hands to the JSON decoder are exactly the bytes
this choice produced. -/
theorem c8_rawBytes {σ τ υ : Type} (env : CheckEnv σ τ υ) :
    (env.isLastSourcer = true → obtainRawBytes env = env.lastSource) ∧
    (env.isLastSourcer = false → obtainRawBytes env = env.readFile) ∧
    (∀ d, (checkFunc env).rawUsed = some d →
      obtainRawBytes env = .ok d ∧ env.schemaValidation = true) := by
  refine ⟨fun h => ?_, fun h => ?_, ?_⟩
  · simp [obtainRawBytes, h]
  · simp [obtainRawBytes, h]
  · unfold checkFunc checkTail
    repeat' split
    all_goals intro d hd
    all_goals simp_all

/-- C4: when the conflicting-options error does not apply, the schema
source is selected in this exact order: forced online fetch or a missing
embedded default yields the online URL derived from the system version
(even when a custom location was supplied); otherwise a supplied custom
location is used; otherwise the embedded default, whose bundled raw text
is parsed directly with no call into the scheme-dispatching loader. -/
theorem c4_schemaSource_order {σ τ υ : Type} (env : CheckEnv σ τ υ)
    (hnc : ¬(0 < env.schemaPath.length ∧ env.schemaFetchOnline = true)) :
    ((env.schemaFetchOnline = true ∨ env.rawEmbedSchema = "") →
      resolveSchemaSource env.schemaPath env.schemaFetchOnline
          env.rawEmbedSchema env.krakendVersion =
        .ok (.location (onlineSchemaURL (getVersionMinor env.krakendVersion)))) ∧
    ((env.schemaFetchOnline = false ∧ env.rawEmbedSchema ≠ "" ∧
        0 < env.schemaPath.length) →
      resolveSchemaSource env.schemaPath env.schemaFetchOnline
          env.rawEmbedSchema env.krakendVersion =
        .ok (.location env.schemaPath)) ∧
    ((env.schemaFetchOnline = false ∧ env.rawEmbedSchema ≠ "" ∧
        env.schemaPath.length = 0) →
      resolveSchemaSource env.schemaPath env.schemaFetchOnline
          env.rawEmbedSchema env.krakendVersion = .ok .embedded) ∧
    ((checkFunc env).resolvedSource = some .embedded →
      (checkFunc env).embeddedTextParsed = some env.rawEmbedSchema ∧
      Stage.compileLocation ∉ (checkFunc env).trace) := by
  refine ⟨fun h => ?_, fun h => ?_, fun h => ?_, ?_⟩
  · rw [resolveSchemaSource_eq, if_neg hnc, if_pos]
    rcases h with h | h <;> simp [h]
  · rw [resolveSchemaSource_eq, if_neg hnc, if_neg, if_pos h.2.2]
    simp [h.1, h.2.1]
  · rw [resolveSchemaSource_eq, if_neg hnc, if_neg, if_neg]
    · omega
    · simp [h.1, h.2.1]
  · unfold checkFunc checkTail
    repeat' split
    all_goals intro hres
    all_goals simp_all

/-- Witness for the amended C2: a normally-returning run does get its
context cancelled. -/
theorem c2_amended_witness :
    (RunRouterFunc 0 0 (fun _ : ServiceConfig Unit => RunOutcome.normal)
        ⟨false, 0, ()⟩).cancelCalled = true :=
  (c2_amended 0 0 (fun _ => RunOutcome.normal) ⟨false, 0, ()⟩).mpr rfl

/-- Witness for C3 at a concrete environment supplying both a custom
schema location and the online flag. -/
theorem c3_witness :
    resolveSchemaSource envConflict.schemaPath envConflict.schemaFetchOnline
        envConflict.rawEmbedSchema envConflict.krakendVersion =
      .error .conflictingOptions ∧
    (checkFunc envConflict).err = some .conflictingOptions ∧
    (checkFunc envConflict).exitCode = 1 ∧
    Stage.compileLocation ∉ (checkFunc envConflict).trace := by
  have h := c3_conflictingOptions envConflict (by decide) rfl
  have hm : Stage.conflictCheck ∈ (checkFunc envConflict).trace := by decide
  exact ⟨h.1, (h.2 hm).1, (h.2 hm).2.1, (h.2 hm).2.2.1⟩

/-- Witness for C4 at a concrete environment where the embedded default
is selected. -/
theorem c4_witness :
    resolveSchemaSource envBase.schemaPath envBase.schemaFetchOnline
        envBase.rawEmbedSchema envBase.krakendVersion = .ok .embedded ∧
    (checkFunc envBase).embeddedTextParsed = some envBase.rawEmbedSchema ∧
    Stage.compileLocation ∉ (checkFunc envBase).trace := by
  have h := c4_schemaSource_order envBase (by decide)
  have h4 := h.2.2.2 (by decide)
  exact ⟨h.2.2.1 ⟨rfl, by decide, rfl⟩, h4.1, h4.2⟩

/-- Witness for C7 at a concrete environment whose route simulation
fails: the failing stage is the last one attempted. -/
theorem c7_witness :
    (checkFunc envSimFail).trace.getLast? =
      errStage (CheckErr.simulationErr "boom") :=
  (c7_pipeline envSimFail).2.2.2 (CheckErr.simulationErr "boom") (by decide)

/-- Witness for C8 at a concrete environment whose parser exposes the
last-source capability. -/
theorem c8_witness :
    obtainRawBytes envBase = envBase.lastSource ∧
    obtainRawBytes envBase = .ok [123, 125] := by
  have h := c8_rawBytes envBase
  exact ⟨h.1 rfl, (h.2.2 [123, 125] (by decide)).1⟩

end KrakendCheck
